import Mathlib

/-!
Verification of the `EgoDataset` core (l5kit/dataset/ego.py): flat-index
resolution over cumulative scene sizes, the Frenet target-coordinate
conversion branch of `get_frame`, single-scene extraction with interval
rebasing, and the two index-lookup helpers.

Conventions of the shallow embedding:
* Python lists / 1-d numpy record arrays are Lean `List`s; Python indexing
  (with negative-index support) is `pyGet`, Python slicing is `pySlice`
  (natural bounds, as produced by interval fields) and `pySliceZ`
  (integer bounds, clamped like Python slices).
* Python exceptions are the `Except PyErr` monad; numbers are `ℤ`/`ℕ`,
  coordinates are `ℚ` (exact arithmetic in place of float64/float32).
* `np.arctan2` is an explicit function parameter `arctan2` threaded into
  `get_frame` (a transcendental primitive of the ambient math library).
-/

namespace L5Kit

/-- A scene record of the chunked dataset: its half-open interval of frame
indices, plus the remaining fields (host, start/end time) kept opaque. -/
structure SceneRecord where
  frame_index_interval : ℕ × ℕ
  payload : ℤ
deriving DecidableEq, Repr

/-- A frame record: timestamp, half-open intervals into the agent and
traffic-light-face sequences, plus the ego pose fields kept opaque. -/
structure FrameRecord where
  timestamp : ℤ
  agent_index_interval : ℕ × ℕ
  traffic_light_faces_index_interval : ℕ × ℕ
  ego_payload : ℤ
deriving DecidableEq, Repr

/-- Agent records are opaque to this core (consumed by the sample generator). -/
abbrev AgentRecord := ℤ

/-- Traffic-light-face records are opaque to this core. -/
abbrev TlFaceRecord := ℤ

/-- The backing store (`ChunkedDataset`): four ordered record sequences. -/
structure ChunkedDataset where
  scenes : List SceneRecord
  frames : List FrameRecord
  agents : List AgentRecord
  tl_faces : List TlFaceRecord
deriving DecidableEq, Repr

/-- Python list indexing `l[i]`: negative `i` counts from the end;
out of range yields `none` (an IndexError at the call site). -/
def pyGet {α : Type} (l : List α) (i : ℤ) : Option α :=
  if i < 0 then
    if -i ≤ (l.length : ℤ) then l[((l.length : ℤ) + i).toNat]? else none
  else l[i.toNat]?

/-- Python slicing `l[a:b]` for natural bounds (interval fields are array
indices, hence nonnegative): drop `a`, keep `b - a`. -/
def pySlice {α : Type} (l : List α) (a b : ℕ) : List α :=
  (l.drop a).take (b - a)

/-- Normalisation of one integer slice bound, as Python does it: negative
bounds count from the end (clamped below at 0), nonnegative bounds are
clamped above at the length. -/
def pySliceIdx (len : ℕ) (i : ℤ) : ℕ :=
  if i < 0 then ((len : ℤ) + i).toNat else min i.toNat len

/-- Python slicing `l[a:b]` for integer bounds. -/
def pySliceZ {α : Type} (l : List α) (a b : ℤ) : List α :=
  (l.drop (pySliceIdx l.length a)).take (pySliceIdx l.length b - pySliceIdx l.length a)

/-- `np.arange(a, b)`: the integers `a, a+1, ..., b-1` (empty when `b ≤ a`). -/
def npArange (a b : ℤ) : List ℤ :=
  (List.range (b - a).toNat).map (fun j => a + (j : ℤ))

/-- `bisect.bisect_right` on a sorted list: the insertion point to the right
of any entries equal to `x`, i.e. the length of the maximal prefix of
elements `≤ x`. -/
def bisect_right (l : List ℕ) (x : ℤ) : ℕ :=
  match l with
  | [] => 0
  | a :: t => if x < (a : ℤ) then 0 else bisect_right t x + 1

/-- The Python exceptions raised by this core. -/
inductive PyErr
  | valueError (msg : String)
  | indexError
  | linAlgError
  | assertionError
deriving DecidableEq, Repr

instance {ε α : Type} [DecidableEq ε] [DecidableEq α] : DecidableEq (Except ε α) :=
  fun a b =>
    match a, b with
    | Except.ok x, Except.ok y => decidable_of_iff (x = y) (by simp)
    | Except.error e, Except.error f => decidable_of_iff (e = f) (by simp)
    | Except.ok _, Except.error _ => isFalse (fun hc => by cases hc)
    | Except.error _, Except.ok _ => isFalse (fun hc => by cases hc)

/-- `self.cumulative_sizes`: the `[:, 1]` column of the scenes' frame
intervals, i.e. each scene's one-past-last flat frame index. -/
def cumulativeSizes (zarr : ChunkedDataset) : List ℕ :=
  zarr.scenes.map (fun s => s.frame_index_interval.2)

/-- The index-resolution step of `__getitem__` (lines 147-152):
right-bisection of the cumulative sizes, then subtraction of the previous
scene's cumulative size (or nothing for scene 0). -/
def resolveIdx (cum : List ℕ) (index : ℤ) : ℕ × ℤ :=
  let scene_index := bisect_right cum index
  if scene_index = 0 then (0, index)
  else (scene_index, index - (cum.getD (scene_index - 1) 0 : ℤ))

/-- Reconstruction of a flat index from a `(scene_index, in_scene_offset)`
pair: `cumulative[scene_index - 1] + in_scene_offset`, or the offset alone
for scene 0. -/
def reconstructIdx (cum : List ℕ) (p : ℕ × ℤ) : ℤ :=
  if p.1 = 0 then p.2 else (cum.getD (p.1 - 1) 0 : ℤ) + p.2

/-- The lower end of scene `k`'s flat-index range as the spec writes it:
`cumulative[k-1]`, read as `0` when `k = 0`. -/
def cumPrev (cum : List ℕ) (k : ℕ) : ℕ :=
  if k = 0 then 0 else cum.getD (k - 1) 0

/-- The structured sample returned by the sample generator, as read by
`get_frame` (`data[...]` accesses). Coordinates are exact rationals. -/
structure SampleData where
  image : List (List (List ℚ))
  target_positions : List (ℚ × ℚ)
  target_yaws : List ℚ
  target_availabilities : List Bool
  history_positions : List (ℚ × ℚ)
  history_yaws : List ℚ
  history_availabilities : List Bool
  world_to_image : List (List ℚ)
  ego_center : ℚ × ℚ
  centroid : ℚ × ℚ
  yaw : ℚ
  extent : ℚ × ℚ × ℚ
deriving DecidableEq

/-- The rasterizer as consumed by this core: only its route-Frenet
conversion primitive `(x, y), heading ↦ ((s, d), relative_heading)` is
visible here. -/
structure Rasterizer where
  route_frenet_coordinates_from_xy_heading : (ℚ × ℚ) → ℚ → (ℚ × ℚ) × ℚ

/-- The configuration as consumed by this core: the Frenet toggle
(`cfg.get("use_frenet", True)`), with the raster/model parameters that are
merely forwarded to the sample generator kept opaque. -/
structure Config where
  use_frenet : Bool
  payload : ℤ
deriving DecidableEq

/-- One frame of a sample-generator window with its interval references
dereferenced: the frame's own content plus the agent and
traffic-light-face records its intervals select. -/
structure FrameContent where
  timestamp : ℤ
  ego_payload : ℤ
  agents : List AgentRecord
  tl_faces : List TlFaceRecord
deriving DecidableEq, Repr

/-- Modelled from the spec: `generate_agent_sample` (module
`l5kit.sampling`) is not under src/. Spec §6 describes it as a pure
function `(state_index, frame_window, agents, tl_faces, track_id) ->
Sample`, and §3 states that agent and traffic-light-face records are
"opaque to this core beyond their position in the interval structure" and
owned by the sample generator, which reaches them through the frames'
half-open intervals. Accordingly the model dereferences every window
frame's intervals into the records they select and hands the resulting
interval-free contents to an arbitrary assembly function `assemble`
(which also absorbs the raster/model configuration parameters and the
optional perturbation bound by `functools.partial` in `__init__`). -/
def generate_agent_sample (assemble : ℤ → List FrameContent → Option ℤ → SampleData)
    (state_index : ℤ) (frames : List FrameRecord)
    (agents : List AgentRecord) (tl_faces : List TlFaceRecord)
    (track_id : Option ℤ) : SampleData :=
  assemble state_index
    (frames.map (fun f =>
      { timestamp := f.timestamp
        ego_payload := f.ego_payload
        agents := pySlice agents f.agent_index_interval.1 f.agent_index_interval.2
        tl_faces := pySlice tl_faces f.traffic_light_faces_index_interval.1
          f.traffic_light_faces_index_interval.2 }))
    track_id

/-- The `EgoDataset`: configuration, the assembly core of the sample
generator (bound once in `__init__` via `functools.partial`), the backing
store, the rasterizer, and the derived cumulative-size index. -/
structure EgoDataset where
  cfg : Config
  assemble : ℤ → List FrameContent → Option ℤ → SampleData
  dataset : ChunkedDataset
  rasterizer : Rasterizer
  cumulative_sizes : List ℕ

/-- `EgoDataset.__init__`: store the collaborators and derive
`cumulative_sizes` from the scenes' frame intervals. -/
def mkEgoDataset (cfg : Config) (assemble : ℤ → List FrameContent → Option ℤ → SampleData)
    (zarr : ChunkedDataset) (rast : Rasterizer) : EgoDataset :=
  { cfg := cfg
    assemble := assemble
    dataset := zarr
    rasterizer := rast
    cumulative_sizes := cumulativeSizes zarr }

/-- `self.sample_function`: the partial application built in `__init__`. -/
def EgoDataset.sample_function (d : EgoDataset) :
    ℤ → List FrameRecord → List AgentRecord → List TlFaceRecord → Option ℤ → SampleData :=
  generate_agent_sample d.assemble

/-- `EgoDataset.__len__`: the number of frame records. -/
def egoLen (d : EgoDataset) : ℕ :=
  d.dataset.frames.length

/-- A 3x3 rational matrix (the affine image/world transforms). -/
structure Mat3 where
  m00 : ℚ
  m01 : ℚ
  m02 : ℚ
  m10 : ℚ
  m11 : ℚ
  m12 : ℚ
  m20 : ℚ
  m21 : ℚ
  m22 : ℚ
deriving DecidableEq, Repr

/-- Whether a list-of-rows matrix has shape `(3, 3)`. -/
def isShape33 (m : List (List ℚ)) : Bool :=
  m.length = 3 && m.all (fun r => r.length = 3)

/-- Read a `Mat3` out of a list-of-rows matrix (entries defaulting to 0;
only used under `isShape33`). -/
def toMat3 (m : List (List ℚ)) : Mat3 :=
  let row := fun i => m.getD i []
  { m00 := (row 0).getD 0 0, m01 := (row 0).getD 1 0, m02 := (row 0).getD 2 0
    m10 := (row 1).getD 0 0, m11 := (row 1).getD 1 0, m12 := (row 1).getD 2 0
    m20 := (row 2).getD 0 0, m21 := (row 2).getD 1 0, m22 := (row 2).getD 2 0 }

/-- Determinant of a 3x3 matrix. -/
def Mat3.det (M : Mat3) : ℚ :=
  M.m00 * (M.m11 * M.m22 - M.m12 * M.m21)
    - M.m01 * (M.m10 * M.m22 - M.m12 * M.m20)
    + M.m02 * (M.m10 * M.m21 - M.m11 * M.m20)

/-- Inverse of a 3x3 matrix by the adjugate formula (used with `det ≠ 0`). -/
def Mat3.inv3 (M : Mat3) : Mat3 :=
  let d := M.det
  { m00 := (M.m11 * M.m22 - M.m12 * M.m21) / d
    m01 := -(M.m01 * M.m22 - M.m02 * M.m21) / d
    m02 := (M.m01 * M.m12 - M.m02 * M.m11) / d
    m10 := -(M.m10 * M.m22 - M.m12 * M.m20) / d
    m11 := (M.m00 * M.m22 - M.m02 * M.m20) / d
    m12 := -(M.m00 * M.m12 - M.m02 * M.m10) / d
    m20 := (M.m10 * M.m21 - M.m11 * M.m20) / d
    m21 := -(M.m00 * M.m21 - M.m01 * M.m20) / d
    m22 := (M.m00 * M.m11 - M.m01 * M.m10) / d }

/-- Lines 90-91 of `get_frame`: `image_to_world = np.inverse(world_to_image)`
followed by `assert image_to_world.shape == (3, 3)`. The source actually
spells `np.inverse`, a function numpy does not have (the branch is marked
"DO NOT SUBMIT"), so as written the branch raises AttributeError on every
call, transform good or bad. The model lets the evidently intended
`np.linalg.inv` succeed so that properties of the intended algorithm can
be stated; see `np_sub_col2` and the C4 entry for the faithful reading.
A non-3x3 input fails hard either inside the inversion (non-square raises
LinAlgError) or at the shape assert (AssertionError); both are collapsed
into the assert's error here. A singular 3x3 input raises LinAlgError. -/
def image_to_world_of (wti : List (List ℚ)) : Except PyErr Mat3 :=
  if isShape33 wti then
    let M := toMat3 wti
    if M.det = 0 then Except.error PyErr.linAlgError
    else Except.ok M.inv3
  else Except.error PyErr.assertionError

/-- Lines 92-93 of `get_frame`, read per point: apply the 2x2
rotation/scale block of the inverted transform plus its translation
column. This is the intended map; the source's
`np.matmul(image_to_world[0:2, 0:2], image_coords)` on the (N, 2)
`target_positions` stack is not a per-point map (it needs the transposed
(2, N) layout: it raises ValueError for N different from 2 and contracts
over the point axis for N = 2), and line 105 feeds the length-2
`ego_center` through the same code path. -/
def world_from_image_pt (M : Mat3) (p : ℚ × ℚ) : ℚ × ℚ :=
  (M.m00 * p.1 + M.m01 * p.2 + M.m02, M.m10 * p.1 + M.m11 * p.2 + M.m12)

/-- Line 80: `image.transpose(2, 0, 1)` on an H x W x C array, giving
C x H x W. -/
def transpose201 (img : List (List (List ℚ))) : List (List (List ℚ)) :=
  let channels := ((img.headD []).headD []).length
  (List.range channels).map (fun c => img.map (fun row => row.map (fun px => px.getD c 0)))

/-- The example dict returned by `get_frame`. -/
structure FrameOut where
  image : List (List (List ℚ))
  target_positions : List (ℚ × ℚ)
  target_yaws : List ℚ
  target_availabilities : List Bool
  history_positions : List (ℚ × ℚ)
  history_yaws : List ℚ
  history_availabilities : List Bool
  world_to_image : List (List ℚ)
  track_id : ℤ
  timestamp : ℤ
  centroid : ℚ × ℚ
  yaw : ℚ
  extent : ℚ × ℚ × ℚ
deriving DecidableEq, Inhabited

/-- `EgoDataset.get_frame` (lines 63-130). `arctan2` is `np.arctan2`.
The Frenet branch renders lines 88-111 as the algorithm they intend
(spec 4.2): invert the world-to-image transform, map targets to world
space per point, shift yaws by the initial ego yaw
`arctan2(M[0,1], M[0,0])`, convert each (position, yaw) through the
rasterizer's route-Frenet primitive, and re-zero only the longitudinal
coordinate by the ego anchor `s0` (the lateral anchor is deliberately
dropped, line 108 subtracts `(s0, 0)` per target). The branch as written
cannot run: line 90's `np.inverse` does not exist (AttributeError on
every call), line 93's matmul misuses the (N, 2) layout (see
`world_from_image_pt`), and line 108 is a (2, 1)-column array subtraction
whose faithful semantics is `np_sub_col2` below, not the per-target
subtraction modelled here. -/
def get_frame (arctan2 : ℚ → ℚ → ℚ) (d : EgoDataset)
    (scene_index : ℤ) (state_index : ℤ) (track_id : Option ℤ) : Except PyErr FrameOut :=
  match pyGet d.dataset.scenes scene_index with
  | Option.none => Except.error PyErr.indexError
  | Option.some scene =>
    let frame_interval := scene.frame_index_interval
    let frames := pySlice d.dataset.frames frame_interval.1 frame_interval.2
    let data := d.sample_function state_index frames d.dataset.agents d.dataset.tl_faces track_id
    let image := transpose201 data.image
    let target_positions := data.target_positions
    let target_yaws := data.target_yaws
    let frenet_step : Except PyErr (List (ℚ × ℚ) × List ℚ) :=
      if d.cfg.use_frenet then
        match image_to_world_of data.world_to_image with
        | Except.error e => Except.error e
        | Except.ok M =>
          let target_positions_geomap := target_positions.map (world_from_image_pt M)
          let initial_ego_yaw := arctan2 M.m01 M.m00
          let target_yaws2 := target_yaws.map (fun y => y + initial_ego_yaw)
          let target_frenet_coordinates :=
            (target_positions_geomap.zip target_yaws2).map
              (fun xyh => d.rasterizer.route_frenet_coordinates_from_xy_heading xyh.1 xyh.2)
          let target_frenet_positions := target_frenet_coordinates.map (fun f => f.1)
          let target_relative_headings := target_frenet_coordinates.map (fun f => f.2)
          let ego_in_frenet :=
            (d.rasterizer.route_frenet_coordinates_from_xy_heading
              (world_from_image_pt M data.ego_center) 0).1
          let target_frenet_positions2 :=
            target_frenet_positions.map (fun sd => (sd.1 - ego_in_frenet.1, sd.2 - 0))
          Except.ok (target_frenet_positions2, target_relative_headings)
      else Except.ok (target_positions, target_yaws)
    match frenet_step with
    | Except.error e => Except.error e
    | Except.ok tp_ty =>
      match pyGet d.dataset.frames ((frame_interval.1 : ℤ) + state_index) with
      | Option.none => Except.error PyErr.indexError
      | Option.some ts_frame =>
        Except.ok
          { image := image
            target_positions := tp_ty.1
            target_yaws := tp_ty.2
            target_availabilities := data.target_availabilities
            history_positions := data.history_positions
            history_yaws := data.history_yaws
            history_availabilities := data.history_availabilities
            world_to_image := data.world_to_image
            track_id := match track_id with | Option.none => -1 | Option.some t => t
            timestamp := ts_frame.timestamp
            centroid := data.centroid
            yaw := data.yaw
            extent := data.extent }

/-- The faithful numpy semantics of line 108,
`target_frenet_positions -= np.array([[s0], [0]])`: the minuend is the
(N, 2) stack of `(s, d)` rows built on line 102, the subtrahend has shape
(2, 1), and numpy aligns trailing axes and stretches the length-1 column
axis, so entry (i, j) loses `col[i]`: row 0 loses `s0` in BOTH of its
coordinates and row 1 loses nothing. The shapes are compatible only for
N = 2 (or N = 1, which is stretched to two rows); every other N raises
ValueError. This is not the per-target `(s - s0, d)` subtraction the spec
describes and `get_frame` models as the intent. -/
def np_sub_col2 (rows : List (ℚ × ℚ)) (col : ℚ × ℚ) : Except PyErr (List (ℚ × ℚ)) :=
  match rows with
  | [r0] =>
    Except.ok [(r0.1 - col.1, r0.2 - col.1), (r0.1 - col.2, r0.2 - col.2)]
  | [r0, r1] =>
    Except.ok [(r0.1 - col.1, r0.2 - col.1), (r1.1 - col.2, r1.2 - col.2)]
  | _ => Except.error (PyErr.valueError "operands could not be broadcast together")

/-- The body of `__getitem__` after negative-index remapping
(lines 147-153): resolve, then `get_frame` with `track_id = None`. -/
def getItemCore (arctan2 : ℚ → ℚ → ℚ) (d : EgoDataset) (index : ℤ) : Except PyErr FrameOut :=
  let p := resolveIdx d.cumulative_sizes index
  get_frame arctan2 d (p.1 : ℤ) p.2 Option.none

/-- `EgoDataset.__getitem__` (lines 132-153): Python-style negative
indexing with a ValueError when the magnitude exceeds the length. -/
def getItem (arctan2 : ℚ → ℚ → ℚ) (d : EgoDataset) (index : ℤ) : Except PyErr FrameOut :=
  if index < 0 then
    if (egoLen d : ℤ) < -index then
      Except.error (PyErr.valueError "absolute value of index should not exceed dataset length")
    else getItemCore arctan2 d ((egoLen d : ℤ) + index)
  else getItemCore arctan2 d index

/-- The in-place rebasing of lines 180-181, per frame record: shift both
interval fields down by the slice start offsets. -/
def rebaseFrame (agents_start_index tl_start_index : ℕ) (f : FrameRecord) : FrameRecord :=
  { f with
    agent_index_interval :=
      (f.agent_index_interval.1 - agents_start_index,
       f.agent_index_interval.2 - agents_start_index)
    traffic_light_faces_index_interval :=
      (f.traffic_light_faces_index_interval.1 - tl_start_index,
       f.traffic_light_faces_index_interval.2 - tl_start_index) }

/-- The in-place rebasing of line 182, per scene record: shift the frame
interval down by its own start. -/
def rebaseScene (frame_start_index : ℕ) (s : SceneRecord) : SceneRecord :=
  { s with
    frame_index_interval :=
      (s.frame_index_interval.1 - frame_start_index,
       s.frame_index_interval.2 - frame_start_index) }

/-- The contiguity precondition of `get_scene_dataset` (line 171), for one
interval field: every interval is well formed and consecutive frames'
intervals are adjacent (previous end = next start). -/
def intervalsChained (f : FrameRecord → ℕ × ℕ) (l : List FrameRecord) : Prop :=
  (∀ fr ∈ l, (f fr).1 ≤ (f fr).2)
  ∧ List.Chain' (fun a b => (f a).2 = (f b).1) l

/-- `EgoDataset.get_scene_dataset` (lines 155-190): copy the one-scene
slice of the scene records and its frame slice, slice the agent and
traffic-light-face sequences between the first frame's interval start and
the last frame's interval end (the contiguity assumption of line 171),
rebase all intervals to zero, and wrap the result in a fresh
`EgoDataset` with the same configuration, sample-assembly core and
rasterizer. `frames[0]` / `frames[-1]` on an empty slice raise IndexError. -/
def get_scene_dataset (d : EgoDataset) (scene_index : ℤ) : Except PyErr EgoDataset :=
  let scenes := pySliceZ d.dataset.scenes scene_index (scene_index + 1)
  match scenes[0]? with
  | Option.none => Except.error PyErr.indexError
  | Option.some scene0 =>
    let frame_interval := scene0.frame_index_interval
    let frames := pySlice d.dataset.frames frame_interval.1 frame_interval.2
    match frames.head?, frames.getLast? with
    | Option.some f0, Option.some flast =>
      let agents_start_index := f0.agent_index_interval.1
      let agents_end_index := flast.agent_index_interval.2
      let agents := pySlice d.dataset.agents agents_start_index agents_end_index
      let tl_start_index := f0.traffic_light_faces_index_interval.1
      let tl_end_index := flast.traffic_light_faces_index_interval.2
      let tl_faces := pySlice d.dataset.tl_faces tl_start_index tl_end_index
      let frames2 := frames.map (rebaseFrame agents_start_index tl_start_index)
      let scenes2 := scenes.map (rebaseScene frame_interval.1)
      Except.ok (mkEgoDataset d.cfg d.assemble
        { scenes := scenes2, frames := frames2, agents := agents, tl_faces := tl_faces }
        d.rasterizer)
    | _, _ => Except.error PyErr.indexError

/-- `EgoDataset.get_scene_indices` (lines 192-204): assert the scene index
is below the scene count, then `np.arange` over that scene's frame
interval. -/
def get_scene_indices (d : EgoDataset) (scene_idx : ℤ) : Except PyErr (List ℤ) :=
  if scene_idx < (d.dataset.scenes.length : ℤ) then
    match pyGet d.dataset.scenes scene_idx with
    | Option.none => Except.error PyErr.indexError
    | Option.some s =>
      Except.ok (npArange (s.frame_index_interval.1 : ℤ) (s.frame_index_interval.2 : ℤ))
  else Except.error PyErr.assertionError

/-- `EgoDataset.get_frame_indices` (lines 206-217): assert the frame index
is below the frame count, then return the single-element sequence. -/
def get_frame_indices (d : EgoDataset) (frame_idx : ℤ) : Except PyErr (List ℤ) :=
  if frame_idx < (d.dataset.frames.length : ℤ) then Except.ok [frame_idx]
  else Except.error PyErr.assertionError

/-!
An explicit-heap rendering of `get_scene_dataset`, used to state its frame
effect: numpy arrays live in a heap of one kind per record type,
`slice.copy()` allocates a fresh array, and the in-place `-=` of lines
180-182 is an update of the named array only. This makes "the source store
is not mutated" and "the copy shares no backing array with the source"
expressible.
-/

/-- A heap of numpy arrays of one record type; an array reference is its
index in the allocation list. -/
structure Heap (α : Type) where
  arrays : List (List α)
deriving DecidableEq, Inhabited

/-- Read the array behind a reference (empty for a dangling reference). -/
def Heap.get {α : Type} (h : Heap α) (r : ℕ) : List α :=
  (h.arrays.getD r [])

/-- Allocate a fresh array, returning the new heap and its reference. -/
def Heap.alloc {α : Type} (h : Heap α) (a : List α) : Heap α × ℕ :=
  (⟨h.arrays ++ [a]⟩, h.arrays.length)

/-- Overwrite the array behind a reference in place. -/
def Heap.store {α : Type} (h : Heap α) (r : ℕ) (a : List α) : Heap α :=
  ⟨h.arrays.set r a⟩

/-- The heap state of a `ChunkedDataset`-backed process: one heap per
record kind. -/
structure NpState where
  sceneH : Heap SceneRecord
  frameH : Heap FrameRecord
  agentH : Heap AgentRecord
  tlH : Heap TlFaceRecord
deriving DecidableEq, Inhabited

/-- A store as a quadruple of array references into an `NpState`. -/
structure StoreRefs where
  scenesRef : ℕ
  framesRef : ℕ
  agentsRef : ℕ
  tlRef : ℕ
deriving DecidableEq, Repr, Inhabited

/-- `get_scene_dataset` over the explicit heap (lines 167-188): every
`slice.copy()` is an allocation; the three `-=` statements are in-place
stores to the freshly allocated scene/frame arrays. Returns the heap after
extraction and the references of the extracted store. -/
def get_scene_dataset_heap (S : NpState) (st : StoreRefs) (scene_index : ℤ) :
    Except PyErr (NpState × StoreRefs) :=
  let scenesArr := pySliceZ (S.sceneH.get st.scenesRef) scene_index (scene_index + 1)
  let sceneAlloc := S.sceneH.alloc scenesArr
  match scenesArr[0]? with
  | Option.none => Except.error PyErr.indexError
  | Option.some scene0 =>
    let frame_interval := scene0.frame_index_interval
    let framesArr := pySlice (S.frameH.get st.framesRef) frame_interval.1 frame_interval.2
    let frameAlloc := S.frameH.alloc framesArr
    match framesArr.head?, framesArr.getLast? with
    | Option.some f0, Option.some flast =>
      let agents_start_index := f0.agent_index_interval.1
      let agents_end_index := flast.agent_index_interval.2
      let agentAlloc := S.agentH.alloc
        (pySlice (S.agentH.get st.agentsRef) agents_start_index agents_end_index)
      let tl_start_index := f0.traffic_light_faces_index_interval.1
      let tl_end_index := flast.traffic_light_faces_index_interval.2
      let tlAlloc := S.tlH.alloc
        (pySlice (S.tlH.get st.tlRef) tl_start_index tl_end_index)
      let frameH2 := frameAlloc.1.store frameAlloc.2
        ((frameAlloc.1.get frameAlloc.2).map (fun f =>
          { f with
            agent_index_interval :=
              (f.agent_index_interval.1 - agents_start_index,
               f.agent_index_interval.2 - agents_start_index) }))
      let frameH3 := frameH2.store frameAlloc.2
        ((frameH2.get frameAlloc.2).map (fun f =>
          { f with
            traffic_light_faces_index_interval :=
              (f.traffic_light_faces_index_interval.1 - tl_start_index,
               f.traffic_light_faces_index_interval.2 - tl_start_index) }))
      let sceneH2 := sceneAlloc.1.store sceneAlloc.2
        ((sceneAlloc.1.get sceneAlloc.2).map (fun s =>
          { s with
            frame_index_interval :=
              (s.frame_index_interval.1 - frame_interval.1,
               s.frame_index_interval.2 - frame_interval.1) }))
      Except.ok
        (⟨sceneH2, frameH3, agentAlloc.1, tlAlloc.1⟩,
         ⟨sceneAlloc.2, frameAlloc.2, agentAlloc.2, tlAlloc.2⟩)
    | _, _ => Except.error PyErr.indexError

/-!
Concrete instances, used to evaluate the verified operations on explicit
inputs: a store with two scenes of 3 and 2 frames (cumulative `[3, 5]`),
contiguous agent and traffic-light-face intervals, and a sample-assembly
core whose output depends on the dereferenced window contents.
-/

/-- The 3x3 identity, as a list-of-rows matrix. -/
def id33 : List (List ℚ) :=
  [[1, 0, 0], [0, 1, 0], [0, 0, 1]]

/-- First demo scene: frames `[0, 3)`. -/
def demoScene0 : SceneRecord :=
  { frame_index_interval := (0, 3), payload := 100 }

/-- Second demo scene: frames `[3, 5)`. -/
def demoScene1 : SceneRecord :=
  { frame_index_interval := (3, 5), payload := 101 }

/-- Five demo frames with contiguous agent and tl-face intervals. -/
def demoFrames : List FrameRecord :=
  [ { timestamp := 1000, agent_index_interval := (0, 2),
      traffic_light_faces_index_interval := (0, 1), ego_payload := 50 },
    { timestamp := 1001, agent_index_interval := (2, 3),
      traffic_light_faces_index_interval := (1, 1), ego_payload := 51 },
    { timestamp := 1002, agent_index_interval := (3, 5),
      traffic_light_faces_index_interval := (1, 2), ego_payload := 52 },
    { timestamp := 2000, agent_index_interval := (5, 6),
      traffic_light_faces_index_interval := (2, 2), ego_payload := 53 },
    { timestamp := 2001, agent_index_interval := (6, 8),
      traffic_light_faces_index_interval := (2, 4), ego_payload := 54 } ]

/-- The demo store. -/
def demoZarr : ChunkedDataset :=
  { scenes := [demoScene0, demoScene1]
    frames := demoFrames
    agents := [10, 11, 12, 13, 14, 15, 16, 17]
    tl_faces := [20, 21, 22, 23] }

/-- A demo sample-assembly core; `centroid` and `yaw` depend on the
dereferenced window contents so the scene-copy equivalence is exercised on
material the generator actually reads. -/
def demoAssemble : ℤ → List FrameContent → Option ℤ → SampleData :=
  fun state_index contents _ =>
    { image := [[[1, 2], [3, 4]], [[5, 6], [7, 8]]]
      target_positions := [(1, 2), (3, 4)]
      target_yaws := [0, 1]
      target_availabilities := [true, true]
      history_positions := [(0, 0)]
      history_yaws := [0]
      history_availabilities := [true]
      world_to_image := id33
      ego_center := (5, 6)
      centroid := ((state_index : ℚ), (((contents.map (fun fc => fc.agents.sum)).sum : ℤ) : ℚ))
      yaw := (((contents.map (fun fc => fc.tl_faces.length)).sum : ℕ) : ℚ)
      extent := (1, 2, 3) }

/-- The identity route-Frenet primitive: `(x, y), h ↦ ((x, y), h)`. -/
def demoRast : Rasterizer :=
  { route_frenet_coordinates_from_xy_heading := fun p h => (p, h) }

/-- A stand-in for `np.arctan2` in concrete evaluations. -/
def demoArctan2 : ℚ → ℚ → ℚ :=
  fun _ _ => 0

/-- The demo dataset, Frenet conversion enabled. -/
def demoD : EgoDataset :=
  mkEgoDataset { use_frenet := true, payload := 0 } demoAssemble demoZarr demoRast

/-- An assembly core returning a malformed (2x2) world-to-image
transform. -/
def demoAssembleBadShape : ℤ → List FrameContent → Option ℤ → SampleData :=
  fun state_index contents track_id =>
    { demoAssemble state_index contents track_id with
      world_to_image := [[1, 0], [0, 1]] }

/-- A demo dataset whose samples carry a malformed transform. -/
def demoDBadShape : EgoDataset :=
  mkEgoDataset { use_frenet := true, payload := 0 } demoAssembleBadShape demoZarr demoRast

/-- The demo dataset with Frenet conversion disabled. -/
def demoDNoFrenet : EgoDataset :=
  mkEgoDataset { use_frenet := false, payload := 0 } demoAssemble demoZarr demoRast

/-- The sample `demoD` generates for scene 0, offset 0, ego. -/
def demoData : SampleData :=
  demoD.sample_function 0
    (pySlice demoD.dataset.frames demoScene0.frame_index_interval.1
      demoScene0.frame_index_interval.2)
    demoD.dataset.agents demoD.dataset.tl_faces Option.none

/-- The frame `demoDNoFrenet` returns for scene 0, offset 1, track 7. -/
def demoOut : FrameOut :=
  match get_frame demoArctan2 demoDNoFrenet 0 1 (Option.some 7) with
  | Except.ok out => out
  | Except.error _ => default

/-- The sample `demoDBadShape` generates for scene 0, offset 0, ego. -/
def demoDataBadShape : SampleData :=
  demoDBadShape.sample_function 0
    (pySlice demoDBadShape.dataset.frames demoScene0.frame_index_interval.1
      demoScene0.frame_index_interval.2)
    demoDBadShape.dataset.agents demoDBadShape.dataset.tl_faces Option.none

/-- A demo heap: the four arrays of `demoZarr`, one per heap. -/
def demoNpState : NpState :=
  { sceneH := { arrays := [[demoScene0, demoScene1]] }
    frameH := { arrays := [demoFrames] }
    agentH := { arrays := [[10, 11, 12, 13, 14, 15, 16, 17]] }
    tlH := { arrays := [[20, 21, 22, 23]] } }

/-- References of the demo store inside `demoNpState`. -/
def demoRefs : StoreRefs :=
  { scenesRef := 0, framesRef := 0, agentsRef := 0, tlRef := 0 }

/-- The heap and store references produced by extracting scene 1. -/
def demoHeapRes : NpState × StoreRefs :=
  match get_scene_dataset_heap demoNpState demoRefs 1 with
  | Except.ok res => res
  | Except.error _ => default

/-! Helper lemmas. -/

lemma bisect_right_eq_of (x : ℤ) :
    ∀ (l : List ℕ), List.Sorted (· ≤ ·) l →
      ∀ k : ℕ, k < l.length →
        (∀ j : ℕ, j + 1 = k → (l.getD j 0 : ℤ) ≤ x) →
        x < (l.getD k 0 : ℤ) →
        bisect_right l x = k := by
  intro l
  induction l with
  | nil =>
    intro _ k hk
    simp at hk
  | cons a t ih =>
    intro hs k hk hlow hhigh
    rcases List.sorted_cons.mp hs with ⟨ha, hts⟩
    cases k with
    | zero =>
      have hxa : x < (a : ℤ) := by simpa using hhigh
      simp [bisect_right, hxa]
    | succ m =>
      have hax : (a : ℤ) ≤ x := by
        have h1 := hlow m rfl
        cases m with
        | zero => simpa using h1
        | succ m2 =>
          have hm2 : m2 < t.length := by
            simp only [List.length_cons] at hk
            omega
          have hmem : t.getD m2 0 ∈ t := by
            rw [List.getD_eq_getElem t 0 hm2]
            exact List.getElem_mem hm2
          have h2 : (a : ℤ) ≤ (t.getD m2 0 : ℤ) := by
            exact_mod_cast ha _ hmem
          rw [List.getD_cons_succ] at h1
          exact le_trans h2 h1
      have hstep : bisect_right (a :: t) x = bisect_right t x + 1 := by
        simp [bisect_right, not_lt.mpr hax]
      rw [hstep]
      have hk2 : m < t.length := by
        simp only [List.length_cons] at hk
        omega
      have hlow2 : ∀ j : ℕ, j + 1 = m → (t.getD j 0 : ℤ) ≤ x := by
        intro j hj
        have := hlow (j + 1) (by omega)
        rwa [List.getD_cons_succ] at this
      have hhigh2 : x < (t.getD m 0 : ℤ) := by
        rwa [List.getD_cons_succ] at hhigh
      rw [ih hts m hk2 hlow2 hhigh2]

lemma pyGet_natCast {α : Type} (l : List α) (k : ℕ) :
    pyGet l (k : ℤ) = l[k]? := by
  unfold pyGet
  rw [if_neg (by omega : ¬ ((k : ℤ) < 0))]
  rw [Int.toNat_natCast]

lemma pyGet_neg_remap {α : Type} (l : List α) (i : ℤ) (h0 : i < 0)
    (h1 : -i ≤ (l.length : ℤ)) :
    pyGet l i = pyGet l ((l.length : ℤ) + i) := by
  unfold pyGet
  rw [if_pos h0, if_pos h1, if_neg (by omega : ¬ ((l.length : ℤ) + i < 0))]

/-! Theorems for the index-resolution claims. -/

/-- C1: for every valid flat frame index `i` (`0 ≤ i < length()`),
resolving `i` by right-bisection of the cumulative-size array and then
reconstructing the flat index as `cumulative[scene_index - 1] +
in_scene_offset` (or the offset alone when `scene_index = 0`) returns
exactly `i`. -/
theorem resolve_reconstruct_roundtrip (d : EgoDataset) (i : ℕ) (_hi : i < egoLen d) :
    reconstructIdx d.cumulative_sizes (resolveIdx d.cumulative_sizes (i : ℤ)) = (i : ℤ) := by
  unfold resolveIdx reconstructIdx
  by_cases h0 : bisect_right d.cumulative_sizes (i : ℤ) = 0
  · simp [h0]
  · simp only [h0, if_false, ite_false]
    ring

/-- C1 witness: the round trip at the concrete flat index 4 of the demo
dataset (length 5). -/
theorem resolve_reconstruct_roundtrip_witness :
    reconstructIdx demoD.cumulative_sizes (resolveIdx demoD.cumulative_sizes ((4 : ℕ) : ℤ))
      = ((4 : ℕ) : ℤ) :=
  resolve_reconstruct_roundtrip demoD 4 (by decide)

/-- C2: with a sorted cumulative array, every flat index in
`[cumulative[k-1], cumulative[k])` (`[0, cumulative[0])` for `k = 0`)
resolves to scene `k` with offset `i - cumulative[k-1]`; in particular the
boundary index `cumulative[k-1]` itself resolves to scene `k` at offset 0,
never to the preceding scene. -/
theorem resolve_scene_assignment (cum : List ℕ) (hs : List.Sorted (· ≤ ·) cum)
    (k : ℕ) (hk : k < cum.length) (i : ℕ)
    (hlow : cumPrev cum k ≤ i) (hhigh : i < cum.getD k 0) :
    resolveIdx cum (i : ℤ) = (k, (i : ℤ) - (cumPrev cum k : ℤ)) := by
  have hb : bisect_right cum (i : ℤ) = k := by
    apply bisect_right_eq_of (i : ℤ) cum hs k hk
    · intro j hj
      have : cumPrev cum k = cum.getD j 0 := by
        unfold cumPrev
        rw [if_neg (by omega : ¬ k = 0)]
        congr 1
        omega
      rw [← this]
      exact_mod_cast hlow
    · exact_mod_cast hhigh
  unfold resolveIdx
  rw [hb]
  cases k with
  | zero => simp [cumPrev]
  | succ m =>
    rw [if_neg (by omega : ¬ m + 1 = 0)]
    unfold cumPrev
    rw [if_neg (by omega : ¬ m + 1 = 0)]

/-- C2 witness: the boundary index 3 of the demo dataset (cumulative
`[3, 5]`) resolves to scene 1 at offset 0. -/
theorem resolve_scene_assignment_witness :
    resolveIdx demoD.cumulative_sizes ((3 : ℕ) : ℤ)
      = (1, ((3 : ℕ) : ℤ) - (cumPrev demoD.cumulative_sizes 1 : ℤ)) :=
  resolve_scene_assignment demoD.cumulative_sizes (by decide) 1 (by decide) 3
    (by decide) (by decide)

lemma image_to_world_of_error (wti : List (List ℚ)) (e : PyErr)
    (h : image_to_world_of wti = Except.error e) :
    e = PyErr.linAlgError ∨ e = PyErr.assertionError := by
  simp only [image_to_world_of] at h
  by_cases hsh : isShape33 wti = true
  · rw [if_pos hsh] at h
    by_cases hdet : (toMat3 wti).det = 0
    · rw [if_pos hdet] at h
      left
      simp only [Except.error.injEq] at h
      exact h.symm
    · rw [if_neg hdet] at h
      cases h
  · rw [if_neg hsh] at h
    right
    simp only [Except.error.injEq] at h
    exact h.symm

lemma get_frame_ne_valueError (arctan2 : ℚ → ℚ → ℚ) (d : EgoDataset)
    (k j : ℤ) (tid : Option ℤ) (msg : String) :
    get_frame arctan2 d k j tid ≠ Except.error (PyErr.valueError msg) := by
  unfold get_frame
  intro h
  rcases hsc : pyGet d.dataset.scenes k with _ | scene
  · rw [hsc] at h
    simp at h
  · rw [hsc] at h
    simp only [] at h
    by_cases hf : d.cfg.use_frenet = true
    · simp only [hf, if_true] at h
      rcases hi2 : image_to_world_of
          (d.sample_function j
            (pySlice d.dataset.frames scene.frame_index_interval.1 scene.frame_index_interval.2)
            d.dataset.agents d.dataset.tl_faces tid).world_to_image with e | M
      · rw [hi2] at h
        simp only [Except.error.injEq] at h
        rcases image_to_world_of_error _ e hi2 with he | he <;> rw [he] at h <;> cases h
      · rw [hi2] at h
        rcases hts : pyGet d.dataset.frames ((scene.frame_index_interval.1 : ℤ) + j)
            with _ | fr <;> rw [hts] at h <;> simp at h
    · simp only [hf, if_false] at h
      rcases hts : pyGet d.dataset.frames ((scene.frame_index_interval.1 : ℤ) + j)
          with _ | fr <;> rw [hts] at h <;> simp at h

/-- C3: for every negative index `n`, item lookup raises the ValueError
exactly when `-n` exceeds the dataset length; otherwise it behaves
identically to lookup at `length() + n`, which itself can never raise
that ValueError. -/
theorem getItem_negative_index (arctan2 : ℚ → ℚ → ℚ) (d : EgoDataset)
    (n : ℤ) (hn : n < 0) :
    ((egoLen d : ℤ) < -n →
      getItem arctan2 d n
        = Except.error
            (PyErr.valueError "absolute value of index should not exceed dataset length"))
    ∧ (-n ≤ (egoLen d : ℤ) →
      getItem arctan2 d n = getItem arctan2 d ((egoLen d : ℤ) + n)
        ∧ ∀ msg : String,
            getItem arctan2 d ((egoLen d : ℤ) + n) ≠ Except.error (PyErr.valueError msg)) := by
  constructor
  · intro hbig
    unfold getItem
    rw [if_pos hn, if_pos hbig]
  · intro hsmall
    have hnn : ¬ ((egoLen d : ℤ) + n < 0) := by omega
    constructor
    · unfold getItem
      rw [if_pos hn, if_neg (by omega : ¬ (egoLen d : ℤ) < -n), if_neg hnn]
    · intro msg
      unfold getItem
      rw [if_neg hnn]
      unfold getItemCore
      exact get_frame_ne_valueError arctan2 d _ _ _ msg

/-- C3 witness: on the demo dataset (length 5), index -6 raises the
ValueError while index -5 resolves identically to index 0. -/
theorem getItem_negative_index_witness :
    (getItem demoArctan2 demoD (-6)
        = Except.error
            (PyErr.valueError "absolute value of index should not exceed dataset length"))
    ∧ getItem demoArctan2 demoD (-5) = getItem demoArctan2 demoD ((egoLen demoD : ℤ) + (-5)) :=
  ⟨(getItem_negative_index demoArctan2 demoD (-6) (by decide)).1 (by decide),
   ((getItem_negative_index demoArctan2 demoD (-5) (by decide)).2 (by decide)).1⟩

/-- C8: on a store with contiguous scene intervals starting at 0,
`get_scene_indices k` returns exactly the contiguous flat-index range
`[cumulative[k-1], cumulative[k])` for every `k < scene_count()`, and the
call at `k = scene_count()` fails with the assertion error. -/
theorem scene_indices_range (d : EgoDataset)
    (hcum : d.cumulative_sizes = cumulativeSizes d.dataset)
    (hzero : (d.dataset.scenes.map (fun s => s.frame_index_interval.1)).getD 0 0 = 0)
    (hchain : List.Chain'
      (fun s t => s.frame_index_interval.2 = t.frame_index_interval.1) d.dataset.scenes) :
    (∀ k : ℕ, k < d.dataset.scenes.length →
      get_scene_indices d (k : ℤ)
        = Except.ok (npArange (cumPrev d.cumulative_sizes k : ℤ)
            (d.cumulative_sizes.getD k 0 : ℤ)))
    ∧ get_scene_indices d (d.dataset.scenes.length : ℤ)
        = Except.error PyErr.assertionError := by
  have hcval : ∀ (m : ℕ) (hm : m < d.dataset.scenes.length),
      (d.cumulative_sizes.getD m 0 : ℕ)
        = (d.dataset.scenes.get ⟨m, hm⟩).frame_index_interval.2 := by
    intro m hm
    have hmlen : m < (cumulativeSizes d.dataset).length := by
      simpa [cumulativeSizes] using hm
    rw [hcum, List.getD_eq_getElem _ _ hmlen]
    simp [cumulativeSizes, List.get_eq_getElem]
  constructor
  · intro k hk
    have hps : pyGet d.dataset.scenes (k : ℤ)
        = Option.some (d.dataset.scenes.get ⟨k, hk⟩) := by
      rw [pyGet_natCast, List.getElem?_eq_getElem hk, List.get_eq_getElem]
    unfold get_scene_indices
    rw [if_pos (by exact_mod_cast hk), hps]
    refine congrArg Except.ok ?_
    have hlo : (d.dataset.scenes.get ⟨k, hk⟩).frame_index_interval.1
        = cumPrev d.cumulative_sizes k := by
      cases k with
      | zero =>
        have h0 : (0 : ℕ) < (d.dataset.scenes.map (fun s => s.frame_index_interval.1)).length := by
          simpa using hk
        rw [List.getD_eq_getElem _ _ h0] at hzero
        simp only [List.getElem_map] at hzero
        unfold cumPrev
        rw [if_pos rfl]
        rw [List.get_eq_getElem]
        exact hzero
      | succ m =>
        have hm : m < d.dataset.scenes.length - 1 := by omega
        have hstep := List.chain'_iff_get.mp hchain m hm
        unfold cumPrev
        rw [if_neg (by omega : ¬ m + 1 = 0)]
        have := hcval m (by omega)
        simp only [Nat.add_sub_cancel]
        rw [this, hstep]
    rw [hlo, hcval k hk]
  · unfold get_scene_indices
    rw [if_neg (by omega)]

/-- C8 witness: scene 1 of the demo dataset yields the range `[3, 5)`. -/
theorem scene_indices_range_witness :
    get_scene_indices demoD ((1 : ℕ) : ℤ)
      = Except.ok (npArange (cumPrev demoD.cumulative_sizes 1 : ℤ)
          (demoD.cumulative_sizes.getD 1 0 : ℤ)) :=
  (scene_indices_range demoD rfl (by decide)
    (by
      refine List.chain'_cons.mpr ⟨by decide, ?_⟩
      exact List.chain'_singleton _)).1 1 (by decide)

/-- C10 counterexample: on the demo dataset (2 scenes), the negative
scene index -3 passes the precondition assertion (`-3 < 2`) but the
method still fails, with an IndexError from the end-relative scene
lookup — refuting the claim that every negative argument yields a
result instead of failing. -/
theorem indices_negative_overflow_counterexample :
    get_scene_indices demoD (-3) = Except.error PyErr.indexError := by
  decide

/-- C10 amended: the bounds assertions reject only indices at or above
the respective count, so every negative argument passes them;
`get_scene_indices` behaves end-relatively for `-scene_count() ≤ n < 0`
and fails with an IndexError (not the assertion) when `-n` exceeds the
scene count, while `get_frame_indices` returns the single-element
sequence `(n,)` unchanged for every negative `n`. -/
theorem indices_negative_args (d : EgoDataset) (n : ℤ) (hn : n < 0) :
    get_frame_indices d n = Except.ok [n]
    ∧ (-n ≤ (d.dataset.scenes.length : ℤ) →
        get_scene_indices d n
          = get_scene_indices d ((d.dataset.scenes.length : ℤ) + n))
    ∧ ((d.dataset.scenes.length : ℤ) < -n →
        get_scene_indices d n = Except.error PyErr.indexError) := by
  refine ⟨?_, ?_, ?_⟩
  · unfold get_frame_indices
    rw [if_pos (by omega)]
  · intro hle
    unfold get_scene_indices
    rw [if_pos (by omega), if_pos (by omega)]
    rw [pyGet_neg_remap _ n hn hle]
  · intro hbig
    unfold get_scene_indices
    rw [if_pos (by omega)]
    have hnone : pyGet d.dataset.scenes n = Option.none := by
      unfold pyGet
      rw [if_pos hn, if_neg (by omega)]
    rw [hnone]

/-- C10 witness (amended claim): on the demo dataset, frame index -1
returns `(-1,)` and scene index -1 behaves like scene index
`scene_count() - 1`. -/
theorem indices_negative_args_witness :
    get_frame_indices demoD (-1) = Except.ok [-1]
    ∧ get_scene_indices demoD (-1)
        = get_scene_indices demoD ((demoD.dataset.scenes.length : ℤ) + (-1)) :=
  ⟨(indices_negative_args demoD (-1) (by decide)).1,
   (indices_negative_args demoD (-1) (by decide)).2.1 (by decide)⟩

/-- C9: whenever `get_frame` returns an example, its `track_id` field is
defined: `-1` when no track id was passed (ego sampling), the passed id
otherwise. -/
theorem get_frame_track_id (arctan2 : ℚ → ℚ → ℚ) (d : EgoDataset)
    (k j : ℤ) (tid : Option ℤ) (out : FrameOut)
    (h : get_frame arctan2 d k j tid = Except.ok out) :
    out.track_id = tid.getD (-1) := by
  unfold get_frame at h
  rcases hsc : pyGet d.dataset.scenes k with _ | scene
  · rw [hsc] at h
    simp at h
  · rw [hsc] at h
    simp only [] at h
    by_cases hf : d.cfg.use_frenet = true
    · simp only [hf, if_true] at h
      rcases hi2 : image_to_world_of
          (d.sample_function j
            (pySlice d.dataset.frames scene.frame_index_interval.1 scene.frame_index_interval.2)
            d.dataset.agents d.dataset.tl_faces tid).world_to_image with e | M
      · rw [hi2] at h
        simp at h
      · rw [hi2] at h
        rcases hts : pyGet d.dataset.frames ((scene.frame_index_interval.1 : ℤ) + j)
            with _ | fr
        · rw [hts] at h
          simp at h
        · rw [hts] at h
          simp only [Except.ok.injEq] at h
          subst h
          cases tid <;> rfl
    · rw [Bool.not_eq_true] at hf
      simp only [hf, Bool.false_eq_true, if_false] at h
      rcases hts : pyGet d.dataset.frames ((scene.frame_index_interval.1 : ℤ) + j)
          with _ | fr
      · rw [hts] at h
        simp at h
      · rw [hts] at h
        simp only [Except.ok.injEq] at h
        subst h
        cases tid <;> rfl

/-- C9 witness: sampling track 7 at scene 0, offset 1 of the demo dataset
yields `track_id = 7`. -/
theorem get_frame_track_id_witness : demoOut.track_id = (7 : ℤ) :=
  get_frame_track_id demoArctan2 demoDNoFrenet 0 1 (Option.some 7) demoOut (by decide)

/-- C5: when Frenet conversion is enabled and the sample's world-to-image
transform is not 3x3 or not invertible, `get_frame` fails with a hard
error (so it never returns pixel-space targets silently). -/
theorem get_frame_frenet_bad_transform (arctan2 : ℚ → ℚ → ℚ) (d : EgoDataset)
    (k j : ℤ) (tid : Option ℤ) (scene : SceneRecord)
    (hscene : pyGet d.dataset.scenes k = Option.some scene)
    (hfren : d.cfg.use_frenet = true)
    (data : SampleData)
    (hdata : d.sample_function j
        (pySlice d.dataset.frames scene.frame_index_interval.1 scene.frame_index_interval.2)
        d.dataset.agents d.dataset.tl_faces tid = data)
    (hbad : isShape33 data.world_to_image = false ∨ (toMat3 data.world_to_image).det = 0) :
    ∃ e, get_frame arctan2 d k j tid = Except.error e := by
  have herr : ∃ e, image_to_world_of data.world_to_image = Except.error e := by
    rcases hbad with hb | hb
    · refine ⟨PyErr.assertionError, ?_⟩
      unfold image_to_world_of
      rw [if_neg (by simp [hb])]
    · by_cases hsh : isShape33 data.world_to_image = true
      · refine ⟨PyErr.linAlgError, ?_⟩
        unfold image_to_world_of
        rw [if_pos hsh]
        simp only [hb, ite_true]
      · refine ⟨PyErr.assertionError, ?_⟩
        unfold image_to_world_of
        rw [if_neg hsh]
  obtain ⟨e, he⟩ := herr
  refine ⟨e, ?_⟩
  unfold get_frame
  rw [hscene]
  simp only [hdata, hfren, if_true, he]

lemma toMat3_id33 : toMat3 id33 = ⟨1, 0, 0, 0, 1, 0, 0, 0, 1⟩ := rfl

lemma det_id : Mat3.det ⟨1, 0, 0, 0, 1, 0, 0, 0, 1⟩ = 1 := by
  unfold Mat3.det
  norm_num

lemma inv3_id : Mat3.inv3 ⟨1, 0, 0, 0, 1, 0, 0, 0, 1⟩ = ⟨1, 0, 0, 0, 1, 0, 0, 0, 1⟩ := by
  simp only [Mat3.inv3, det_id]
  norm_num [Mat3.mk.injEq]

lemma image_to_world_of_id33 :
    image_to_world_of id33 = Except.ok ⟨1, 0, 0, 0, 1, 0, 0, 0, 1⟩ := by
  unfold image_to_world_of
  rw [if_pos (show isShape33 id33 = true by decide)]
  rw [if_neg (show ¬ (toMat3 id33).det = 0 by rw [toMat3_id33, det_id]; norm_num)]
  rw [toMat3_id33, inv3_id]

lemma world_from_image_pt_id (p : ℚ × ℚ) :
    world_from_image_pt ⟨1, 0, 0, 0, 1, 0, 0, 0, 1⟩ p = p := by
  unfold world_from_image_pt
  simp

lemma map_proj_zip {α β : Type} (l1 : List α) (l2 : List β) (hle : l1.length ≤ l2.length) :
    ((l1.zip l2).map (fun xyh => (xyh.1, xyh.2))).map (fun f => f.1) = l1 := by
  rw [List.map_map]
  rw [show ((fun f : α × β => f.1) ∘ (fun xyh : α × β => (xyh.1, xyh.2))) = Prod.fst from
    funext fun x => rfl]
  exact List.map_fst_zip l1 l2 hle

/-- The intended Frenet algorithm of spec 4.2, as embedded in
`get_frame`: with Frenet conversion enabled, an identity image-to-world
transform and an identity-preserving route-Frenet primitive, the returned
targets have longitudinal coordinate `x - x0` (the anchor `s0 = x0` is
subtracted) and lateral coordinate `y` unchanged (the lateral anchor is
not subtracted), for every future target `(x, y)`. The source itself
never reaches this result; see `frenet_broadcast_divergence`. -/
theorem get_frame_frenet_identity (arctan2 : ℚ → ℚ → ℚ) (d : EgoDataset)
    (k j : ℤ) (tid : Option ℤ) (scene : SceneRecord)
    (hscene : pyGet d.dataset.scenes k = Option.some scene)
    (hfren : d.cfg.use_frenet = true)
    (hrast : ∀ p h, d.rasterizer.route_frenet_coordinates_from_xy_heading p h = (p, h))
    (data : SampleData)
    (hdata : d.sample_function j
        (pySlice d.dataset.frames scene.frame_index_interval.1 scene.frame_index_interval.2)
        d.dataset.agents d.dataset.tl_faces tid = data)
    (hwti : data.world_to_image = id33)
    (hlen : data.target_yaws.length = data.target_positions.length)
    (ts_frame : FrameRecord)
    (hts : pyGet d.dataset.frames ((scene.frame_index_interval.1 : ℤ) + j)
      = Option.some ts_frame) :
    ∃ out, get_frame arctan2 d k j tid = Except.ok out
      ∧ out.target_positions
          = data.target_positions.map (fun p => (p.1 - data.ego_center.1, p.2)) := by
  unfold get_frame
  rw [hscene]
  simp only [hdata, hfren, if_true, hwti, image_to_world_of_id33, hts]
  refine ⟨_, rfl, ?_⟩
  simp only [hrast, world_from_image_pt_id]
  have hmapid : data.target_positions.map (world_from_image_pt ⟨1, 0, 0, 0, 1, 0, 0, 0, 1⟩)
      = data.target_positions := by
    conv_rhs => rw [← List.map_id data.target_positions]
    apply List.map_congr_left
    intro p _
    exact world_from_image_pt_id p
  rw [hmapid]
  rw [map_proj_zip _ _ (by simp [hlen])]
  apply List.map_congr_left
  intro p _
  simp

/-- The intended-algorithm property evaluated on the demo dataset
(identity transform, identity Frenet primitive, ego center `(5, 6)`):
the targets come back as `(x - 5, y)`. -/
theorem get_frame_frenet_identity_witness :
    ∃ out, get_frame demoArctan2 demoD 0 0 Option.none = Except.ok out
      ∧ out.target_positions
          = demoData.target_positions.map (fun p => (p.1 - demoData.ego_center.1, p.2)) :=
  get_frame_frenet_identity demoArctan2 demoD 0 0 Option.none demoScene0 (by decide)
    rfl (fun p h => rfl) demoData rfl rfl (by decide)
    { timestamp := 1000, agent_index_interval := (0, 2),
      traffic_light_faces_index_interval := (0, 1), ego_payload := 50 }
    (by decide)

/-- C4: code bug. Line 90's `np.inverse` does not exist in numpy, so the
Frenet branch raises AttributeError on every call before lines 101-111
run; and even under the intended inversion, line 108's column subtraction
evaluated with numpy's actual shape rules (`np_sub_col2`) takes the
anchor `s0` off BOTH coordinates of the first target and off nothing
else: at targets `[(1, 2), (3, 4)]` with `s0 = 5` it yields
`[(-4, -3), (3, 4)]`, not the per-target `(s - s0, d)` result
`[(-4, 2), (-2, 4)]` that the claim (and the spec's intent) states. -/
theorem frenet_broadcast_divergence :
    np_sub_col2 [(1, 2), (3, 4)] (5, 0)
        = Except.ok [((1 : ℚ) - 5, 2 - 5), (3 - 0, 4 - 0)]
    ∧ np_sub_col2 [(1, 2), (3, 4)] (5, 0)
        ≠ Except.ok ([((1 : ℚ), (2 : ℚ)), (3, 4)].map (fun p => (p.1 - 5, p.2))) := by
  constructor
  · rfl
  · intro h
    rw [show np_sub_col2 [(1, 2), (3, 4)] (5, 0)
        = Except.ok [((1 : ℚ) - 5, 2 - 5), (3 - 0, 4 - 0)] from rfl] at h
    simp only [List.map_cons, List.map_nil, Except.ok.injEq, List.cons.injEq,
      Prod.mk.injEq] at h
    obtain ⟨⟨h1, h2⟩, hrest⟩ := h
    norm_num at h2

/-- C5 witness: the demo dataset whose samples carry a malformed (2x2)
transform makes `get_frame` fail. -/
theorem get_frame_frenet_bad_transform_witness :
    ∃ e, get_frame demoArctan2 demoDBadShape 0 0 Option.none = Except.error e :=
  get_frame_frenet_bad_transform demoArctan2 demoDBadShape 0 0 Option.none demoScene0
    (by decide) rfl demoDataBadShape rfl (Or.inl (by decide))

lemma Heap.get_alloc_lt {α : Type} (h : Heap α) (a : List α) (r : ℕ)
    (hr : r < h.arrays.length) : (h.alloc a).1.get r = h.get r := by
  unfold Heap.alloc Heap.get
  simp only []
  rw [List.getD_eq_getElem?_getD, List.getD_eq_getElem?_getD, List.getElem?_append_left hr]

lemma Heap.alloc_ref {α : Type} (h : Heap α) (a : List α) :
    (h.alloc a).2 = h.arrays.length := rfl

lemma Heap.get_store_ne {α : Type} (h : Heap α) (r r2 : ℕ) (a : List α)
    (hne : r2 ≠ r) : (h.store r a).get r2 = h.get r2 := by
  unfold Heap.store Heap.get
  simp only []
  rw [List.getD_eq_getElem?_getD, List.getD_eq_getElem?_getD,
    List.getElem?_set_ne (Ne.symm hne)]

/-- C7: extraction over the explicit heap never mutates the source store:
all four source arrays are unchanged afterwards, the extracted store's
references are disjoint from the source's, and an in-place store through
either side's reference leaves the other side's array intact. -/
theorem scene_dataset_heap_no_mutation (S : NpState) (st : StoreRefs) (k : ℤ)
    (hs : st.scenesRef < S.sceneH.arrays.length)
    (hf : st.framesRef < S.frameH.arrays.length)
    (ha : st.agentsRef < S.agentH.arrays.length)
    (ht : st.tlRef < S.tlH.arrays.length)
    (S2 : NpState) (st2 : StoreRefs)
    (hrun : get_scene_dataset_heap S st k = Except.ok (S2, st2)) :
    (S2.sceneH.get st.scenesRef = S.sceneH.get st.scenesRef
      ∧ S2.frameH.get st.framesRef = S.frameH.get st.framesRef
      ∧ S2.agentH.get st.agentsRef = S.agentH.get st.agentsRef
      ∧ S2.tlH.get st.tlRef = S.tlH.get st.tlRef)
    ∧ (st2.scenesRef ≠ st.scenesRef ∧ st2.framesRef ≠ st.framesRef
      ∧ st2.agentsRef ≠ st.agentsRef ∧ st2.tlRef ≠ st.tlRef)
    ∧ (∀ arr : List SceneRecord,
        (S2.sceneH.store st2.scenesRef arr).get st.scenesRef = S2.sceneH.get st.scenesRef
        ∧ (S2.sceneH.store st.scenesRef arr).get st2.scenesRef = S2.sceneH.get st2.scenesRef)
    ∧ (∀ arr : List FrameRecord,
        (S2.frameH.store st2.framesRef arr).get st.framesRef = S2.frameH.get st.framesRef
        ∧ (S2.frameH.store st.framesRef arr).get st2.framesRef = S2.frameH.get st2.framesRef)
    ∧ (∀ arr : List AgentRecord,
        (S2.agentH.store st2.agentsRef arr).get st.agentsRef = S2.agentH.get st.agentsRef
        ∧ (S2.agentH.store st.agentsRef arr).get st2.agentsRef = S2.agentH.get st2.agentsRef)
    ∧ (∀ arr : List TlFaceRecord,
        (S2.tlH.store st2.tlRef arr).get st.tlRef = S2.tlH.get st.tlRef
        ∧ (S2.tlH.store st.tlRef arr).get st2.tlRef = S2.tlH.get st2.tlRef) := by
  unfold get_scene_dataset_heap at hrun
  simp only [] at hrun
  rcases h0 : (pySliceZ (S.sceneH.get st.scenesRef) k (k + 1))[0]? with _ | scene0
  · rw [h0] at hrun
    simp at hrun
  · rw [h0] at hrun
    simp only [] at hrun
    rcases hh : (pySlice (S.frameH.get st.framesRef) scene0.frame_index_interval.1
        scene0.frame_index_interval.2).head? with _ | f0
    · rw [hh] at hrun
      simp at hrun
    · rcases hl : (pySlice (S.frameH.get st.framesRef) scene0.frame_index_interval.1
          scene0.frame_index_interval.2).getLast? with _ | flast
      · rw [hh, hl] at hrun
        simp at hrun
      · rw [hh, hl] at hrun
        simp only [Except.ok.injEq] at hrun
        injection hrun with hS2 hst2
        subst hS2
        subst hst2
        simp only [Heap.alloc_ref]
        have hsne : st.scenesRef ≠ S.sceneH.arrays.length := Nat.ne_of_lt hs
        have hfne : st.framesRef ≠ S.frameH.arrays.length := Nat.ne_of_lt hf
        have hane : st.agentsRef ≠ S.agentH.arrays.length := Nat.ne_of_lt ha
        have htne : st.tlRef ≠ S.tlH.arrays.length := Nat.ne_of_lt ht
        refine ⟨⟨?_, ?_, ?_, ?_⟩, ⟨?_, ?_, ?_, ?_⟩, ?_, ?_, ?_, ?_⟩
        · rw [Heap.get_store_ne _ _ _ _ hsne, Heap.get_alloc_lt _ _ _ hs]
        · rw [Heap.get_store_ne _ _ _ _ hfne, Heap.get_store_ne _ _ _ _ hfne,
            Heap.get_alloc_lt _ _ _ hf]
        · rw [Heap.get_alloc_lt _ _ _ ha]
        · rw [Heap.get_alloc_lt _ _ _ ht]
        · exact Ne.symm hsne
        · exact Ne.symm hfne
        · exact Ne.symm hane
        · exact Ne.symm htne
        · intro arr
          exact ⟨Heap.get_store_ne _ _ _ _ hsne, Heap.get_store_ne _ _ _ _ (Ne.symm hsne)⟩
        · intro arr
          exact ⟨Heap.get_store_ne _ _ _ _ hfne, Heap.get_store_ne _ _ _ _ (Ne.symm hfne)⟩
        · intro arr
          exact ⟨Heap.get_store_ne _ _ _ _ hane, Heap.get_store_ne _ _ _ _ (Ne.symm hane)⟩
        · intro arr
          exact ⟨Heap.get_store_ne _ _ _ _ htne, Heap.get_store_ne _ _ _ _ (Ne.symm htne)⟩

/-- C7 witness: extracting scene 1 from the demo heap leaves the source
frame array unchanged and yields a fresh frames reference. -/
theorem scene_dataset_heap_no_mutation_witness :
    demoHeapRes.1.frameH.get demoRefs.framesRef = demoNpState.frameH.get demoRefs.framesRef
    ∧ demoHeapRes.2.framesRef ≠ demoRefs.framesRef := by
  have h := scene_dataset_heap_no_mutation demoNpState demoRefs 1 (by decide) (by decide)
    (by decide) (by decide) demoHeapRes.1 demoHeapRes.2 (by decide)
  exact ⟨h.1.2.1, h.2.1.2.1⟩


lemma chained_bounds {α : Type} (f : α → ℕ × ℕ) :
    ∀ (l : List α) (f0 fl : α), l.head? = Option.some f0 → l.getLast? = Option.some fl →
      (∀ a ∈ l, (f a).1 ≤ (f a).2) → List.Chain' (fun a b => (f a).2 = (f b).1) l →
      ∀ a ∈ l, (f f0).1 ≤ (f a).1 ∧ (f a).2 ≤ (f fl).2 := by
  intro l
  induction l with
  | nil =>
    intro f0 fl h0
    simp at h0
  | cons x t ih =>
    intro f0 fl h0 hl hw hc a ha
    have hf0 : f0 = x := by
      simp only [List.head?_cons, Option.some.injEq] at h0
      exact h0.symm
    rw [hf0]
    cases t with
    | nil =>
      have hfl : fl = x := by
        simp only [List.getLast?_singleton, Option.some.injEq] at hl
        exact hl.symm
      have hax : a = x := by
        simpa using ha
      rw [hfl, hax]
      exact ⟨le_refl _, le_refl _⟩
    | cons y t2 =>
      have hl2 : (y :: t2).getLast? = Option.some fl := by
        rw [← hl]
        exact (List.getLast?_cons_cons).symm
      have hchain := List.chain'_cons.mp hc
      have ih2 := ih y fl rfl hl2 (fun b hb => hw b (by simp [hb])) hchain.2
      rcases List.mem_cons.mp ha with hax | ha2
      · rw [hax]
        refine ⟨le_refl _, ?_⟩
        have h1 := (ih2 y (by simp)).2
        have h2 := hw y (by simp)
        rw [hchain.1]
        exact le_trans h2 h1
      · have hb := ih2 a ha2
        refine ⟨?_, hb.2⟩
        calc (f x).1 ≤ (f x).2 := hw x (by simp)
          _ = (f y).1 := hchain.1
          _ ≤ (f a).1 := hb.1

lemma pySlice_length {α : Type} (l : List α) (a b : ℕ) :
    (pySlice l a b).length = min (b - a) (l.length - a) := by
  unfold pySlice
  simp [List.length_take, List.length_drop]

lemma pySlice_getElem {α : Type} (l : List α) (a b j : ℕ) (hj : j < b - a) :
    (pySlice l a b)[j]? = l[a + j]? := by
  unfold pySlice
  rw [List.getElem?_take, if_pos hj, List.getElem?_drop]

lemma pySlice_pySlice {α : Type} (l : List α) (a0 a1 x y : ℕ) (h0 : a0 ≤ x) (h1 : y ≤ a1) :
    pySlice (pySlice l a0 a1) (x - a0) (y - a0) = pySlice l x y := by
  unfold pySlice
  rw [List.drop_take, List.drop_drop, List.take_take]
  have e1 : a0 + (x - a0) = x := by omega
  rw [e1]
  have e2 : min ((y - a0) - (x - a0)) ((a1 - a0) - (x - a0)) = y - x := by omega
  rw [e2]

lemma pySliceZ_singleton {α : Type} (l : List α) (k : ℕ) (a : α)
    (h : l[k]? = Option.some a) :
    pySliceZ l (k : ℤ) ((k : ℤ) + 1) = [a] := by
  obtain ⟨hk, hval⟩ := List.getElem?_eq_some.mp h
  unfold pySliceZ pySliceIdx
  rw [if_neg (by omega : ¬ (k : ℤ) < 0), if_neg (by omega : ¬ (k : ℤ) + 1 < 0)]
  have e1 : ((k : ℤ)).toNat = k := Int.toNat_natCast k
  have e2 : ((k : ℤ) + 1).toNat = k + 1 := by omega
  rw [e1, e2]
  have e3 : min k l.length = k := by omega
  have e4 : min (k + 1) l.length = k + 1 := by omega
  rw [e3, e4]
  have e5 : k + 1 - k = 1 := by omega
  rw [e5]
  rw [List.drop_eq_getElem_cons hk]
  simp [hval]


lemma pySlice_full {α : Type} (l : List α) (n : ℕ) (hn : l.length ≤ n) :
    pySlice l 0 n = l := by
  unfold pySlice
  rw [List.drop_zero, Nat.sub_zero]
  exact List.take_of_length_le hn

lemma get_frame_congr (arctan2 : ℚ → ℚ → ℚ) (d1 d2 : EgoDataset) (k1 k2 j : ℤ)
    (tid : Option ℤ) (sc1 sc2 : SceneRecord)
    (h1 : pyGet d1.dataset.scenes k1 = Option.some sc1)
    (h2 : pyGet d2.dataset.scenes k2 = Option.some sc2)
    (hcfg : d1.cfg = d2.cfg)
    (hrast : d1.rasterizer = d2.rasterizer)
    (hdata : d1.sample_function j
        (pySlice d1.dataset.frames sc1.frame_index_interval.1 sc1.frame_index_interval.2)
        d1.dataset.agents d1.dataset.tl_faces tid
      = d2.sample_function j
        (pySlice d2.dataset.frames sc2.frame_index_interval.1 sc2.frame_index_interval.2)
        d2.dataset.agents d2.dataset.tl_faces tid)
    (hts : (pyGet d1.dataset.frames ((sc1.frame_index_interval.1 : ℤ) + j)).map
          (fun f => f.timestamp)
        = (pyGet d2.dataset.frames ((sc2.frame_index_interval.1 : ℤ) + j)).map
          (fun f => f.timestamp)) :
    get_frame arctan2 d1 k1 j tid = get_frame arctan2 d2 k2 j tid := by
  unfold get_frame
  rw [h1, h2]
  simp only []
  rw [hdata, hcfg, hrast]
  rcases ht1 : pyGet d1.dataset.frames ((sc1.frame_index_interval.1 : ℤ) + j) with _ | fr1 <;>
    rcases ht2 : pyGet d2.dataset.frames ((sc2.frame_index_interval.1 : ℤ) + j) with _ | fr2
  · simp only [ht1, ht2]
  · rw [ht1, ht2] at hts
    simp at hts
  · rw [ht1, ht2] at hts
    simp at hts
  · rw [ht1, ht2] at hts
    simp only [Option.map_some', Option.some.injEq] at hts
    simp only [ht1, ht2, hts]


/-- C6: for a scene whose agent and traffic-light-face intervals are
contiguous across its frames, the dataset extracted by
`get_scene_dataset` has all intervals rebased to start at zero and
returns, at every in-scene offset, a `get_frame` result identical to the
original dataset's result for that scene at the same offset. -/
theorem get_scene_dataset_equiv (arctan2 : ℚ → ℚ → ℚ) (d : EgoDataset) (k : ℕ)
    (scene : SceneRecord) (hscene : d.dataset.scenes[k]? = Option.some scene)
    (hle : scene.frame_index_interval.2 ≤ d.dataset.frames.length)
    (hagents : intervalsChained (fun f => f.agent_index_interval)
      (pySlice d.dataset.frames scene.frame_index_interval.1 scene.frame_index_interval.2))
    (htl : intervalsChained (fun f => f.traffic_light_faces_index_interval)
      (pySlice d.dataset.frames scene.frame_index_interval.1 scene.frame_index_interval.2))
    (j : ℕ) (hj : j < scene.frame_index_interval.2 - scene.frame_index_interval.1)
    (tid : Option ℤ) :
    ∃ d2, get_scene_dataset d (k : ℤ) = Except.ok d2
      ∧ (∀ s2 ∈ d2.dataset.scenes, s2.frame_index_interval.1 = 0)
      ∧ get_frame arctan2 d2 0 (j : ℤ) tid = get_frame arctan2 d (k : ℤ) (j : ℤ) tid := by
  have hWlen : (pySlice d.dataset.frames scene.frame_index_interval.1
      scene.frame_index_interval.2).length
      = scene.frame_index_interval.2 - scene.frame_index_interval.1 := by
    rw [pySlice_length]
    omega
  have hWnil : pySlice d.dataset.frames scene.frame_index_interval.1
      scene.frame_index_interval.2 ≠ [] := by
    intro hnil
    rw [hnil] at hWlen
    simp at hWlen
    omega
  obtain ⟨f0, hh⟩ : ∃ f0, (pySlice d.dataset.frames scene.frame_index_interval.1
      scene.frame_index_interval.2).head? = Option.some f0 := by
    cases hcase : (pySlice d.dataset.frames scene.frame_index_interval.1
        scene.frame_index_interval.2).head? with
    | none => exact absurd (List.head?_eq_none_iff.mp hcase) hWnil
    | some f0 => exact ⟨f0, rfl⟩
  obtain ⟨flast, hlast⟩ : ∃ flast, (pySlice d.dataset.frames scene.frame_index_interval.1
      scene.frame_index_interval.2).getLast? = Option.some flast := by
    cases hcase : (pySlice d.dataset.frames scene.frame_index_interval.1
        scene.frame_index_interval.2).getLast? with
    | none => exact absurd (List.getLast?_eq_none_iff.mp hcase) hWnil
    | some flast => exact ⟨flast, rfl⟩
  have hAb := chained_bounds (fun f => f.agent_index_interval) _ f0 flast hh hlast
    hagents.1 hagents.2
  have hTb := chained_bounds (fun f => f.traffic_light_faces_index_interval) _ f0 flast hh
    hlast htl.1 htl.2
  have hsl : pySliceZ d.dataset.scenes (k : ℤ) ((k : ℤ) + 1) = [scene] :=
    pySliceZ_singleton _ k scene hscene
  have hrun : get_scene_dataset d (k : ℤ) = Except.ok (mkEgoDataset d.cfg d.assemble
      { scenes := [rebaseScene scene.frame_index_interval.1 scene]
        frames := (pySlice d.dataset.frames scene.frame_index_interval.1
            scene.frame_index_interval.2).map
          (rebaseFrame f0.agent_index_interval.1 f0.traffic_light_faces_index_interval.1)
        agents := pySlice d.dataset.agents f0.agent_index_interval.1
          flast.agent_index_interval.2
        tl_faces := pySlice d.dataset.tl_faces f0.traffic_light_faces_index_interval.1
          flast.traffic_light_faces_index_interval.2 } d.rasterizer) := by
    unfold get_scene_dataset
    simp only []
    rw [hsl]
    simp only [List.getElem?_cons_zero]
    rw [hh, hlast]
    simp only [List.map_cons, List.map_nil]
  refine ⟨_, hrun, ?_, ?_⟩
  · intro s2 hs2
    simp only [mkEgoDataset] at hs2
    have hs2e : s2 = rebaseScene scene.frame_index_interval.1 scene := by
      simpa using hs2
    rw [hs2e]
    simp [rebaseScene]
  · have hfi1 : (rebaseScene scene.frame_index_interval.1 scene).frame_index_interval.1
        = 0 := by
      simp [rebaseScene]
    have hfi2 : (rebaseScene scene.frame_index_interval.1 scene).frame_index_interval.2
        = scene.frame_index_interval.2 - scene.frame_index_interval.1 := by
      simp [rebaseScene]
    refine get_frame_congr arctan2 _ d 0 (k : ℤ) (j : ℤ) tid
      (rebaseScene scene.frame_index_interval.1 scene) scene ?_ ?_ rfl rfl ?_ ?_
    · simp [mkEgoDataset, pyGet]
    · rw [pyGet_natCast]
      exact hscene
    · simp only [mkEgoDataset]
      rw [hfi1, hfi2]
      have hfull := pySlice_full ((pySlice d.dataset.frames scene.frame_index_interval.1
          scene.frame_index_interval.2).map
        (rebaseFrame f0.agent_index_interval.1 f0.traffic_light_faces_index_interval.1))
        (scene.frame_index_interval.2 - scene.frame_index_interval.1)
        (by rw [List.length_map, hWlen])
      rw [hfull]
      unfold EgoDataset.sample_function
      simp only []
      unfold generate_agent_sample
      refine congrArg (fun c => d.assemble j c tid) ?_
      rw [List.map_map]
      apply List.map_congr_left
      intro fr hfr
      simp only [Function.comp_apply]
      simp only [rebaseFrame]
      simp only [FrameContent.mk.injEq]
      refine ⟨trivial, trivial, ?_, ?_⟩
      · exact pySlice_pySlice d.dataset.agents _ _ _ _ ((hAb fr hfr).1) ((hAb fr hfr).2)
      · exact pySlice_pySlice d.dataset.tl_faces _ _ _ _ ((hTb fr hfr).1) ((hTb fr hfr).2)
    · simp only [mkEgoDataset]
      rw [hfi1]
      simp only [Nat.cast_zero, zero_add]
      rw [pyGet_natCast]
      rw [List.getElem?_map]
      rw [pySlice_getElem d.dataset.frames _ _ j hj]
      have hsj : scene.frame_index_interval.1 + j < d.dataset.frames.length := by omega
      rw [List.getElem?_eq_getElem hsj]
      have hc : ((scene.frame_index_interval.1 : ℤ)) + (j : ℤ)
          = ((scene.frame_index_interval.1 + j : ℕ) : ℤ) := by push_cast; ring
      rw [hc, pyGet_natCast, List.getElem?_eq_getElem hsj]
      simp [rebaseFrame]


/-- C6 witness: extracting scene 1 of the demo dataset gives a standalone
dataset whose scene interval starts at zero and whose frame at offset 1
matches the original frame at global scene 1, offset 1. -/
theorem get_scene_dataset_equiv_witness :
    ∃ d2, get_scene_dataset demoD ((1 : ℕ) : ℤ) = Except.ok d2
      ∧ (∀ s2 ∈ d2.dataset.scenes, s2.frame_index_interval.1 = 0)
      ∧ get_frame demoArctan2 d2 0 ((1 : ℕ) : ℤ) Option.none
          = get_frame demoArctan2 demoD ((1 : ℕ) : ℤ) ((1 : ℕ) : ℤ) Option.none :=
  get_scene_dataset_equiv demoArctan2 demoD 1 demoScene1 rfl (by decide)
    (by
      show intervalsChained (fun f => f.agent_index_interval)
        [ { timestamp := 2000, agent_index_interval := (5, 6),
            traffic_light_faces_index_interval := (2, 2), ego_payload := 53 },
          { timestamp := 2001, agent_index_interval := (6, 8),
            traffic_light_faces_index_interval := (2, 4), ego_payload := 54 } ]
      exact ⟨by decide, List.chain'_cons.mpr ⟨by decide, List.chain'_singleton _⟩⟩)
    (by
      show intervalsChained (fun f => f.traffic_light_faces_index_interval)
        [ { timestamp := 2000, agent_index_interval := (5, 6),
            traffic_light_faces_index_interval := (2, 2), ego_payload := 53 },
          { timestamp := 2001, agent_index_interval := (6, 8),
            traffic_light_faces_index_interval := (2, 4), ego_payload := 54 } ]
      exact ⟨by decide, List.chain'_cons.mpr ⟨by decide, List.chain'_singleton _⟩⟩)
    1 (by decide) Option.none

end L5Kit
